import Mathlib

/-!
Shallow embedding of `src/InstanceManager.ts` (repository `instance-manager`).

The source file contains two variants of the `InstanceManager` class:

* Variant 1 (`V1`, lines 1-322): uses the durable store both for per-peer
  last-seen records and for an `ActiveOwner` record
  (`instance_manager_<appKey>_active`), and handles the message types
  `announce`, `request_election`, `claim_active`, `heartbeat`, `goodbye`
  and `instance_list`.
* Variant 2 (`V2`, lines 323-558): uses the durable store only for per-peer
  heartbeat records and handles `announce`, `claim_active` and `goodbye`.

The embedding models one peer as a record (`W1` / `W2`) that carries the
process-local fields of the class, this peer's view of the shared
`localStorage` keys it reads and writes, the list of messages it has posted
on the BroadcastChannel (`sent`), and the list of state snapshots passed to
the consumer callback (`notes`).  Every handler is a function on this record,
translated line by line from the TypeScript.  `Date.now()` becomes an
explicit `now : Nat` argument where the source reads the clock.
-/

namespace InstanceManager

/-- JavaScript `<` on strings restricted to a code-unit-by-code-unit
lexicographic comparison of the underlying character lists (a proper prefix
is smaller).  This is the comparison the source applies to instance ids in
`instanceId < this.instanceId`. -/
def lexLt : List Char → List Char → Bool
  | _, [] => false
  | [], _ :: _ => true
  | c₁ :: t₁, c₂ :: t₂ => if c₁ = c₂ then lexLt t₁ t₂ else decide (c₁ < c₂)

/-- JavaScript string comparison `a < b`. -/
def jsLt (a b : String) : Bool := lexLt a.data b.data

/-- The durable key-value store (`localStorage`), restricted to the numeric
timestamp records this program keeps, one map per key namespace. -/
def Store : Type := String → Option Nat

/-- `localStorage.setItem` with a timestamp value. -/
def Store.set (s : Store) (k : String) (v : Nat) : Store :=
  fun k' => if k' = k then some v else s k'

/-- `localStorage.removeItem`. -/
def Store.remove (s : Store) (k : String) : Store :=
  fun k' => if k' = k then none else s k'

/-- The empty store. -/
def Store.empty : Store := fun _ => none

/-- Messages posted on the BroadcastChannel (the `type` tag together with
the payload field the source sends for that tag). -/
inductive BMsg where
  | announce (instanceId : String)
  | requestElection (instanceId : String)
  | claimActive (instanceId : String)
  | heartbeat (instanceId : String)
  | goodbye (instanceId : String)
  | instanceList (instances : List String)
deriving DecidableEq, Repr

/-- The snapshot `{isActive, instanceCount}` handed to the consumer
callback by `notifyStateChange`. -/
structure Snapshot where
  isActive : Bool
  instanceCount : Nat
deriving DecidableEq, Repr

/-- JavaScript `Set.add`: appends the element unless already present
(insertion order preserved, no duplicates). -/
def setAdd (l : List String) (x : String) : List String :=
  if x ∈ l then l else l ++ [x]

/-- JavaScript `Set.delete`. -/
def setDelete (l : List String) (x : String) : List String := l.erase x

/-- `HEARTBEAT_INTERVAL = 2000` (both variants). -/
def HEARTBEAT_INTERVAL : Nat := 2000

/-- `HEARTBEAT_TIMEOUT = 5000` (both variants). -/
def HEARTBEAT_TIMEOUT : Nat := 5000

/-! ### Variant 1 (lines 1-322) -/

/-- One peer of variant 1.  `activeRec` is this peer's view of the shared
`..._active` record, `seen` its view of the `..._lastseen_<id>` records. -/
structure W1 where
  selfId : String
  isActive : Bool
  instances : List String
  activeRec : Option String
  seen : Store
  sent : List BMsg
  notes : List Snapshot
  heartbeatOn : Bool
  channelClosed : Bool

/-- `notifyStateChange` (variant 1). -/
def notify1 (w : W1) : W1 :=
  { w with notes := w.notes ++ [⟨w.isActive, w.instances.length⟩] }

/-- `channel.postMessage` (variant 1). -/
def post1 (w : W1) (m : BMsg) : W1 := { w with sent := w.sent ++ [m] }

/-- `broadcastActiveClaim` (variant 1). -/
def broadcastActiveClaim1 (w : W1) : W1 := post1 w (.claimActive w.selfId)

/-- `broadcastInstanceList` (variant 1). -/
def broadcastInstanceList1 (w : W1) : W1 := post1 w (.instanceList w.instances)

/-- `updateLastSeen` (variant 1): store `Date.now()` under the peer's key. -/
def updateLastSeen1 (w : W1) (id : String) (now : Nat) : W1 :=
  { w with seen := w.seen.set id now }

/-- `getLastSeen` (variant 1). -/
def getLastSeen1 (w : W1) (id : String) : Option Nat := w.seen id

/-- `removeLastSeen` (variant 1). -/
def removeLastSeen1 (w : W1) (id : String) : W1 :=
  { w with seen := w.seen.remove id }

/-- `hasActiveInstance` (variant 1): `getActiveInstance() !== null`. -/
def hasActiveInstance1 (w : W1) : Bool := w.activeRec.isSome

/-- `becomeActive` (variant 1): set the flag, write the `ActiveOwner`
record, broadcast `claim_active`, notify. -/
def becomeActive1 (w : W1) : W1 :=
  notify1 (broadcastActiveClaim1
    { w with isActive := true, activeRec := some w.selfId })

/-- `becomeDormant` (variant 1). -/
def becomeDormant1 (w : W1) : W1 := notify1 { w with isActive := false }

/-- `handleAnnounce` (variant 1, lines 93-107). -/
def handleAnnounce1 (w : W1) (id : String) (now : Nat) : W1 :=
  if id ≠ w.selfId then
    let w₁ := updateLastSeen1 { w with instances := setAdd w.instances id } id now
    let w₂ := if w₁.isActive then broadcastActiveClaim1 w₁ else w₁
    notify1 (broadcastInstanceList1 w₂)
  else w

/-- `handleElectionRequest` (variant 1, lines 109-119). -/
def handleElectionRequest1 (w : W1) (id : String) (now : Nat) : W1 :=
  let w₁ :=
    if id ≠ w.selfId then
      updateLastSeen1 { w with instances := setAdd w.instances id } id now
    else w
  if w₁.isActive then broadcastActiveClaim1 w₁ else w₁

/-- `handleActiveClaim` (variant 1, lines 121-138).  Note that the
`instances.add`, `updateLastSeen` and `notifyStateChange` calls at the end
are unconditional in the source. -/
def handleActiveClaim1 (w : W1) (id : String) (now : Nat) : W1 :=
  let w₁ :=
    if id ≠ w.selfId ∧ w.isActive then
      if jsLt id w.selfId then becomeDormant1 w else broadcastActiveClaim1 w
    else if id ≠ w.selfId then becomeDormant1 w
    else w
  notify1 (updateLastSeen1 { w₁ with instances := setAdd w₁.instances id } id now)

/-- `handleHeartbeat` (variant 1, lines 140-146). -/
def handleHeartbeat1 (w : W1) (id : String) (now : Nat) : W1 :=
  if id ≠ w.selfId then
    notify1 (updateLastSeen1 { w with instances := setAdd w.instances id } id now)
  else w

/-- `handleGoodbye` (variant 1, lines 148-158). -/
def handleGoodbye1 (w : W1) (id : String) : W1 :=
  let w₁ := removeLastSeen1 { w with instances := setDelete w.instances id } id
  let w₂ :=
    if ¬ w₁.isActive = true ∧ ¬ hasActiveInstance1 w₁ = true then becomeActive1 w₁
    else w₁
  notify1 w₂

/-- `handleInstanceList` (variant 1, lines 160-167). -/
def handleInstanceList1 (w : W1) (ids : List String) : W1 :=
  notify1 { w with
    instances := ids.foldl
      (fun acc id => if id ≠ w.selfId then setAdd acc id else acc) w.instances }

/-- The eviction test of the `cleanupStaleInstances` loop (variant 1,
line 212): `lastSeen && now - lastSeen > this.HEARTBEAT_TIMEOUT`.  A
missing record — and, by JavaScript truthiness, a record holding `0` —
keeps the peer. -/
def evictCond1 (w : W1) (now : Nat) (id : String) : Bool :=
  match getLastSeen1 w id with
  | some t => (t != 0) && decide (now - t > HEARTBEAT_TIMEOUT)
  | none => false

/-- Tail of `cleanupStaleInstances` (variant 1, lines 232-234). -/
def finishScan1 (w : W1) (changed : Bool) : W1 :=
  if changed then notify1 w else w

/-- The stale-`ActiveOwner` check of `cleanupStaleInstances` (variant 1,
lines 219-230), run after the eviction loop, reading the store as the loop
left it. -/
def activeStaleCheck1 (w : W1) (now : Nat) (changed : Bool) : W1 :=
  match w.activeRec with
  | some aid =>
    if aid ≠ w.selfId then
      match getLastSeen1 w aid with
      | some t =>
        if (t != 0) && decide (now - t > HEARTBEAT_TIMEOUT) then
          let w₁ := { w with activeRec := none }
          let w₂ := if ¬ w₁.isActive = true then becomeActive1 w₁ else w₁
          finishScan1 w₂ true
        else finishScan1 w changed
      | none => finishScan1 w changed
    else finishScan1 w changed
  | none => finishScan1 w changed

/-- `cleanupStaleInstances` (variant 1, lines 206-235).  The `forEach`
loop deletes each stale tracked peer from `instances` and removes its
last-seen record; the eviction test of a peer does not depend on the
deletions made for other peers, so the loop is a filter. -/
def cleanupStaleInstances1 (w : W1) (now : Nat) : W1 :=
  let staleIds := w.instances.filter (fun id => evictCond1 w now id)
  let w₁ := { w with
    instances := w.instances.filter (fun id => ! evictCond1 w now id),
    seen := fun k => if k ∈ staleIds then none else w.seen k }
  activeStaleCheck1 w₁ now (! staleIds.isEmpty)

/-- The delayed body of `requestElection` (variant 1, lines 85-89): at the
end of the 100ms grace window, become active unless already active or an
`ActiveOwner` record exists. -/
def graceElapsed1 (w : W1) : W1 :=
  if ¬ w.isActive = true ∧ ¬ hasActiveInstance1 w = true then becomeActive1 w else w

/-- `destroy` (variant 1, lines 305-321).  `postMessage` on a closed
BroadcastChannel throws `InvalidStateError`; the channel is closed by the
first `destroy`. -/
def destroy1 (w : W1) : Except String W1 :=
  let w₁ := { w with heartbeatOn := false }
  if w₁.channelClosed then Except.error "InvalidStateError"
  else
    let w₂ := post1 w₁ (.goodbye w₁.selfId)
    let w₃ := if w₂.isActive then { w₂ with activeRec := none } else w₂
    let w₄ := removeLastSeen1 w₃ w₃.selfId
    Except.ok { w₄ with channelClosed := true }

/-- The state of a variant-1 peer at the end of its constructor
(lines 24-36): channel open, `announce` posted, election and heartbeat
timers pending, and one synchronous `cleanupStaleInstances()` run. -/
def init1 (selfId : String) (now : Nat) : W1 :=
  cleanupStaleInstances1
    { selfId := selfId, isActive := false, instances := [], activeRec := none,
      seen := Store.empty, sent := [BMsg.announce selfId], notes := [],
      heartbeatOn := true, channelClosed := false } now

/-! ### Variant 2 (lines 323-558) -/

/-- One peer of variant 2.  `hb` is this peer's view of the
`instance_heartbeat_<appKey>_<id>` records. -/
structure W2 where
  selfId : String
  isActive : Bool
  instances : List String
  hb : Store
  sent : List BMsg
  notes : List Snapshot
  heartbeatOn : Bool
  channelClosed : Bool

/-- `notifyStateChange` (variant 2). -/
def notify2 (w : W2) : W2 :=
  { w with notes := w.notes ++ [⟨w.isActive, w.instances.length⟩] }

/-- `channel.postMessage` (variant 2). -/
def post2 (w : W2) (m : BMsg) : W2 := { w with sent := w.sent ++ [m] }

/-- `broadcastActiveClaim` (variant 2). -/
def broadcastActiveClaim2 (w : W2) : W2 := post2 w (.claimActive w.selfId)

/-- `becomeActive` (variant 2): no durable `ActiveOwner` record in this
variant. -/
def becomeActive2 (w : W2) : W2 :=
  notify2 (broadcastActiveClaim2 { w with isActive := true })

/-- `becomeDormant` (variant 2). -/
def becomeDormant2 (w : W2) : W2 := notify2 { w with isActive := false }

/-- `removeHeartbeat` (variant 2). -/
def removeHeartbeat2 (w : W2) (id : String) : W2 :=
  { w with hb := w.hb.remove id }

/-- `handleAnnounce` (variant 2, lines 399-410). -/
def handleAnnounce2 (w : W2) (id : String) : W2 :=
  if id ≠ w.selfId then
    let w₁ := { w with instances := setAdd w.instances id }
    let w₂ := if w₁.isActive then broadcastActiveClaim2 w₁ else w₁
    notify2 w₂
  else w

/-- `handleActiveClaim` (variant 2, lines 412-430). -/
def handleActiveClaim2 (w : W2) (id : String) : W2 :=
  if id ≠ w.selfId then
    let w₁ := { w with instances := setAdd w.instances id }
    let w₂ :=
      if w₁.isActive then
        if jsLt id w₁.selfId then becomeDormant2 w₁ else broadcastActiveClaim2 w₁
      else becomeDormant2 w₁
    notify2 w₂
  else w

/-- `handleGoodbye` (variant 2, lines 432-443).  `wasActive` is computed
before the departing peer is deleted, so `instances.size === 1` reads the
pre-delete size. -/
def handleGoodbye2 (w : W2) (id : String) : W2 :=
  let wasActive := jsLt id w.selfId || decide (w.instances.length = 1)
  let w₁ := removeHeartbeat2 { w with instances := setDelete w.instances id } id
  let w₂ :=
    if ¬ w₁.isActive = true ∧ wasActive = true then becomeActive2 w₁ else w₁
  notify2 w₂

/-- The eviction test of `checkForCrashedInstances` (variant 2,
line 486): `!lastHeartbeat || now - lastHeartbeat > this.HEARTBEAT_TIMEOUT`.
A missing record — and, by JavaScript truthiness, a record holding `0` —
counts as crashed. -/
def evictCond2 (w : W2) (now : Nat) (id : String) : Bool :=
  match w.hb id with
  | some t => (t == 0) || decide (now - t > HEARTBEAT_TIMEOUT)
  | none => true

/-- `checkForCrashedInstances` (variant 2, lines 480-504).  The source
first collects the crashed ids, then deletes them, so the collection phase
reads the unmodified store. -/
def checkForCrashedInstances2 (w : W2) (now : Nat) : W2 :=
  let crashed := w.instances.filter (fun id => evictCond2 w now id)
  if crashed.isEmpty then w
  else
    let w₁ := { w with
      instances := w.instances.filter (fun id => ! evictCond2 w now id),
      hb := fun k => if k ∈ crashed then none else w.hb k }
    let w₂ :=
      if ¬ w₁.isActive = true ∧ w₁.instances.isEmpty then becomeActive2 w₁ else w₁
    notify2 w₂

/-- The delayed body of `requestElection` (variant 2, lines 391-395): at
the end of the 100ms grace window, become active unless already active.
No other condition is checked in this variant. -/
def graceElapsed2 (w : W2) : W2 :=
  if ¬ w.isActive = true then becomeActive2 w else w

/-- `destroy` (variant 2, lines 545-557). -/
def destroy2 (w : W2) : Except String W2 :=
  let w₁ := { w with heartbeatOn := false }
  if w₁.channelClosed then Except.error "InvalidStateError"
  else
    let w₂ := post2 w₁ (.goodbye w₁.selfId)
    let w₃ := removeHeartbeat2 w₂ w₂.selfId
    Except.ok { w₃ with channelClosed := true }

/-- The state of a variant-2 peer at the end of its constructor
(lines 345-356): channel open, `announce` posted, timers pending and the
initial heartbeat written by `startHeartbeat`. -/
def init2 (selfId : String) (now : Nat) : W2 :=
  { selfId := selfId, isActive := false, instances := [],
    hb := Store.empty.set selfId now, sent := [BMsg.announce selfId],
    notes := [], heartbeatOn := true, channelClosed := false }

/-! ### Basic facts about the id comparison -/

theorem lexLt_irrefl : ∀ l, lexLt l l = false
  | [] => rfl
  | _ :: t => by simp [lexLt, lexLt_irrefl t]

theorem lexLt_asymm : ∀ l₁ l₂, lexLt l₁ l₂ = true → lexLt l₂ l₁ = false
  | l₁, [], h => by cases l₁ <;> simp [lexLt] at h
  | [], _ :: _, _ => rfl
  | c₁ :: t₁, c₂ :: t₂, h => by
    by_cases hc : c₁ = c₂
    · subst hc
      simp only [lexLt, if_pos rfl] at h ⊢
      exact lexLt_asymm t₁ t₂ h
    · simp only [lexLt, if_neg hc, if_neg (Ne.symm hc), decide_eq_true_eq] at h ⊢
      exact decide_eq_false (not_lt_of_gt h)

theorem jsLt_irrefl (a : String) : jsLt a a = false := lexLt_irrefl _

theorem jsLt_asymm {a b : String} (h : jsLt a b = true) : jsLt b a = false :=
  lexLt_asymm _ _ h

theorem jsLt_ne {a b : String} (h : jsLt a b = true) : a ≠ b := by
  intro he
  subst he
  rw [jsLt_irrefl] at h
  exact Bool.false_ne_true h

theorem mem_setAdd_self (l : List String) (x : String) : x ∈ setAdd l x := by
  unfold setAdd
  split
  · assumption
  · exact List.mem_append_right _ (List.mem_singleton.mpr rfl)

theorem mem_setAdd_of_mem {l : List String} {x : String} (y : String)
    (h : x ∈ l) : x ∈ setAdd l y := by
  unfold setAdd
  split
  · exact h
  · exact List.mem_append_left _ h

theorem not_mem_setAdd {l : List String} {x y : String} (hxy : x ≠ y)
    (h : x ∉ l) : x ∉ setAdd l y := by
  unfold setAdd
  split
  · exact h
  · intro hm
    rcases List.mem_append.mp hm with h' | h'
    · exact h h'
    · exact hxy (List.mem_singleton.mp h')

/-! ### Characterization lemmas for the variant-2 handlers -/

theorem handleAnnounce2_selfId (w : W2) (id : String) :
    (handleAnnounce2 w id).selfId = w.selfId := by
  unfold handleAnnounce2
  split
  · dsimp only
    split <;> rfl
  · rfl

theorem handleAnnounce2_isActive (w : W2) (id : String) :
    (handleAnnounce2 w id).isActive = w.isActive := by
  unfold handleAnnounce2
  split
  · dsimp only
    split <;> rfl
  · rfl

theorem handleAnnounce2_sent (w : W2) (id : String) (h : id ≠ w.selfId) :
    (handleAnnounce2 w id).sent =
      w.sent ++ (if w.isActive = true then [BMsg.claimActive w.selfId] else []) := by
  unfold handleAnnounce2
  rw [if_pos h]
  cases hA : w.isActive <;>
    simp [broadcastActiveClaim2, post2, notify2, hA]

theorem handleAnnounce2_instances (w : W2) (id : String) (h : id ≠ w.selfId) :
    (handleAnnounce2 w id).instances = setAdd w.instances id := by
  unfold handleAnnounce2
  rw [if_pos h]
  cases hA : w.isActive <;>
    simp [broadcastActiveClaim2, post2, notify2, hA]

theorem handleActiveClaim2_selfId (w : W2) (id : String) :
    (handleActiveClaim2 w id).selfId = w.selfId := by
  unfold handleActiveClaim2
  split
  · dsimp only
    split
    · split <;> rfl
    · rfl
  · rfl

theorem handleActiveClaim2_isActive (w : W2) (id : String) (h : id ≠ w.selfId) :
    (handleActiveClaim2 w id).isActive = (w.isActive && ! jsLt id w.selfId) := by
  unfold handleActiveClaim2
  rw [if_pos h]
  cases hA : w.isActive <;> cases hL : jsLt id w.selfId <;>
    simp [becomeDormant2, broadcastActiveClaim2, post2, notify2, hA, hL]

theorem handleActiveClaim2_sent (w : W2) (id : String) (h : id ≠ w.selfId) :
    (handleActiveClaim2 w id).sent =
      w.sent ++ (if (w.isActive && ! jsLt id w.selfId) = true
                 then [BMsg.claimActive w.selfId] else []) := by
  unfold handleActiveClaim2
  rw [if_pos h]
  cases hA : w.isActive <;> cases hL : jsLt id w.selfId <;>
    simp [becomeDormant2, broadcastActiveClaim2, post2, notify2, hA, hL]

theorem handleActiveClaim2_instances (w : W2) (id : String) (h : id ≠ w.selfId) :
    (handleActiveClaim2 w id).instances = setAdd w.instances id := by
  unfold handleActiveClaim2
  rw [if_pos h]
  cases hA : w.isActive <;> cases hL : jsLt id w.selfId <;>
    simp [becomeDormant2, broadcastActiveClaim2, post2, notify2, hA, hL]

theorem handleGoodbye2_selfId (w : W2) (id : String) :
    (handleGoodbye2 w id).selfId = w.selfId := by
  unfold handleGoodbye2
  dsimp only
  split <;> rfl

theorem handleGoodbye2_isActive (w : W2) (id : String) :
    (handleGoodbye2 w id).isActive =
      (w.isActive || (jsLt id w.selfId || decide (w.instances.length = 1))) := by
  unfold handleGoodbye2
  cases hA : w.isActive <;>
    cases hW : (jsLt id w.selfId || decide (w.instances.length = 1)) <;>
      simp [becomeActive2, broadcastActiveClaim2, post2, notify2,
        removeHeartbeat2, hA, hW]

theorem graceElapsed2_selfId (w : W2) : (graceElapsed2 w).selfId = w.selfId := by
  unfold graceElapsed2
  split <;> rfl

theorem graceElapsed2_isActive (w : W2) : (graceElapsed2 w).isActive = true := by
  unfold graceElapsed2
  cases hA : w.isActive <;>
    simp [becomeActive2, broadcastActiveClaim2, post2, notify2, hA]

theorem graceElapsed2_sent (w : W2) :
    (graceElapsed2 w).sent =
      w.sent ++ (if w.isActive = true then [] else [BMsg.claimActive w.selfId]) := by
  unfold graceElapsed2
  cases hA : w.isActive <;>
    simp [becomeActive2, broadcastActiveClaim2, post2, notify2, hA]

/-! ### Characterization lemmas for the variant-1 handlers -/

theorem handleActiveClaim1_isActive (w : W1) (id : String) (now : Nat)
    (h : id ≠ w.selfId) :
    (handleActiveClaim1 w id now).isActive = (w.isActive && ! jsLt id w.selfId) := by
  unfold handleActiveClaim1
  cases hA : w.isActive <;> cases hL : jsLt id w.selfId <;>
    simp [becomeDormant1, broadcastActiveClaim1, post1, notify1,
      updateLastSeen1, h, hA, hL]

theorem handleActiveClaim1_sent (w : W1) (id : String) (now : Nat)
    (h : id ≠ w.selfId) :
    (handleActiveClaim1 w id now).sent =
      w.sent ++ (if (w.isActive && ! jsLt id w.selfId) = true
                 then [BMsg.claimActive w.selfId] else []) := by
  unfold handleActiveClaim1
  cases hA : w.isActive <;> cases hL : jsLt id w.selfId <;>
    simp [becomeDormant1, broadcastActiveClaim1, post1, notify1,
      updateLastSeen1, h, hA, hL]

theorem handleActiveClaim1_instances (w : W1) (id : String) (now : Nat)
    (h : id ≠ w.selfId) :
    (handleActiveClaim1 w id now).instances = setAdd w.instances id := by
  unfold handleActiveClaim1
  cases hA : w.isActive <;> cases hL : jsLt id w.selfId <;>
    simp [becomeDormant1, broadcastActiveClaim1, post1, notify1,
      updateLastSeen1, h, hA, hL]

/-! ### Sample states used by witnesses and counterexamples -/

/-- A variant-1 peer `"B"` that currently believes it is active. -/
def sampleW1 : W1 :=
  { selfId := "B", isActive := true, instances := [], activeRec := some "B",
    seen := Store.empty, sent := [], notes := [], heartbeatOn := true,
    channelClosed := false }

/-- A variant-2 peer `"B"` that currently believes it is active. -/
def sampleW2 : W2 :=
  { selfId := "B", isActive := true, instances := [], hb := Store.empty,
    sent := [], notes := [], heartbeatOn := true, channelClosed := false }

/-- C3: for every received `claim(p)` with `p ≠ self`, in both variants of
`handleActiveClaim`: `p` is added to the peer set; if self is active and
`p` is lexicographically smaller, self becomes dormant; if self is active
and `p` is not smaller, self stays active and rebroadcasts `claim(self)`;
if self is dormant, self remains dormant. -/
theorem c3_claim_handling (w1 : W1) (w2 : W2) (p : String) (now : Nat)
    (h1 : p ≠ w1.selfId) (h2 : p ≠ w2.selfId) :
    (p ∈ (handleActiveClaim1 w1 p now).instances ∧
     (w1.isActive = true → jsLt p w1.selfId = true →
        (handleActiveClaim1 w1 p now).isActive = false) ∧
     (w1.isActive = true → jsLt p w1.selfId = false →
        (handleActiveClaim1 w1 p now).isActive = true ∧
        (handleActiveClaim1 w1 p now).sent =
          w1.sent ++ [BMsg.claimActive w1.selfId]) ∧
     (w1.isActive = false → (handleActiveClaim1 w1 p now).isActive = false)) ∧
    (p ∈ (handleActiveClaim2 w2 p).instances ∧
     (w2.isActive = true → jsLt p w2.selfId = true →
        (handleActiveClaim2 w2 p).isActive = false) ∧
     (w2.isActive = true → jsLt p w2.selfId = false →
        (handleActiveClaim2 w2 p).isActive = true ∧
        (handleActiveClaim2 w2 p).sent =
          w2.sent ++ [BMsg.claimActive w2.selfId]) ∧
     (w2.isActive = false → (handleActiveClaim2 w2 p).isActive = false)) := by
  refine ⟨⟨?_, ?_, ?_, ?_⟩, ?_, ?_, ?_, ?_⟩
  · rw [handleActiveClaim1_instances w1 p now h1]
    exact mem_setAdd_self _ _
  · intro hA hL
    rw [handleActiveClaim1_isActive w1 p now h1, hA, hL]
    rfl
  · intro hA hL
    refine ⟨?_, ?_⟩
    · rw [handleActiveClaim1_isActive w1 p now h1, hA, hL]
      rfl
    · rw [handleActiveClaim1_sent w1 p now h1, hA, hL]
      rfl
  · intro hA
    rw [handleActiveClaim1_isActive w1 p now h1, hA]
    rfl
  · rw [handleActiveClaim2_instances w2 p h2]
    exact mem_setAdd_self _ _
  · intro hA hL
    rw [handleActiveClaim2_isActive w2 p h2, hA, hL]
    rfl
  · intro hA hL
    refine ⟨?_, ?_⟩
    · rw [handleActiveClaim2_isActive w2 p h2, hA, hL]
      rfl
    · rw [handleActiveClaim2_sent w2 p h2, hA, hL]
      rfl
  · intro hA
    rw [handleActiveClaim2_isActive w2 p h2, hA]
    rfl

/-- Witness for C3 at the concrete input: active peer `"B"` receives
`claim("A")` in both variants. -/
theorem c3_claim_handling_witness :
    ("A" ∈ (handleActiveClaim1 sampleW1 "A" 7).instances ∧
     (sampleW1.isActive = true → jsLt "A" sampleW1.selfId = true →
        (handleActiveClaim1 sampleW1 "A" 7).isActive = false) ∧
     (sampleW1.isActive = true → jsLt "A" sampleW1.selfId = false →
        (handleActiveClaim1 sampleW1 "A" 7).isActive = true ∧
        (handleActiveClaim1 sampleW1 "A" 7).sent =
          sampleW1.sent ++ [BMsg.claimActive sampleW1.selfId]) ∧
     (sampleW1.isActive = false →
        (handleActiveClaim1 sampleW1 "A" 7).isActive = false)) ∧
    ("A" ∈ (handleActiveClaim2 sampleW2 "A").instances ∧
     (sampleW2.isActive = true → jsLt "A" sampleW2.selfId = true →
        (handleActiveClaim2 sampleW2 "A").isActive = false) ∧
     (sampleW2.isActive = true → jsLt "A" sampleW2.selfId = false →
        (handleActiveClaim2 sampleW2 "A").isActive = true ∧
        (handleActiveClaim2 sampleW2 "A").sent =
          sampleW2.sent ++ [BMsg.claimActive sampleW2.selfId]) ∧
     (sampleW2.isActive = false →
        (handleActiveClaim2 sampleW2 "A").isActive = false)) :=
  c3_claim_handling sampleW1 sampleW2 "A" 7 (by decide) (by decide)

/-- C8: delivering `claim(B)` before `announce(B)` to a peer (variant 2)
still puts `B` in the peer set, and produces the same active-status
tie-break outcome as the announce-then-claim order. -/
theorem c8_reordering_resilience (w : W2) (p : String) (h : p ≠ w.selfId) :
    p ∈ (handleActiveClaim2 (handleAnnounce2 w p) p).instances ∧
    p ∈ (handleAnnounce2 (handleActiveClaim2 w p) p).instances ∧
    (handleActiveClaim2 (handleAnnounce2 w p) p).isActive =
      (handleAnnounce2 (handleActiveClaim2 w p) p).isActive := by
  have hA : p ≠ (handleAnnounce2 w p).selfId := by
    rw [handleAnnounce2_selfId]
    exact h
  have hC : p ≠ (handleActiveClaim2 w p).selfId := by
    rw [handleActiveClaim2_selfId]
    exact h
  refine ⟨?_, ?_, ?_⟩
  · rw [handleActiveClaim2_instances _ _ hA]
    exact mem_setAdd_self _ _
  · rw [handleAnnounce2_instances _ _ hC]
    exact mem_setAdd_self _ _
  · rw [handleAnnounce2_isActive, handleActiveClaim2_isActive _ _ hA,
      handleAnnounce2_isActive, handleAnnounce2_selfId,
      handleActiveClaim2_isActive _ _ h]

/-- Witness for C8 at the concrete input: peer `"B"` (active) receives
`claim("A")` and `announce("A")` in either order. -/
theorem c8_reordering_resilience_witness :
    "A" ∈ (handleActiveClaim2 (handleAnnounce2 sampleW2 "A") "A").instances ∧
    "A" ∈ (handleAnnounce2 (handleActiveClaim2 sampleW2 "A") "A").instances ∧
    (handleActiveClaim2 (handleAnnounce2 sampleW2 "A") "A").isActive =
      (handleAnnounce2 (handleActiveClaim2 sampleW2 "A") "A").isActive :=
  c8_reordering_resilience sampleW2 "A" (by decide)

/-- C10: the two variants' `handleActiveClaim` agree on the active-status
decision: started from the same id and active flag, for an incoming claim
from `p ≠ self`, both compute the same resulting `isActive` and emit the
same broadcasts (the reasserting claim under the same condition). -/
theorem c10_variant_equivalence (w1 : W1) (w2 : W2) (p : String) (now : Nat)
    (hid : w1.selfId = w2.selfId) (hact : w1.isActive = w2.isActive)
    (h : p ≠ w2.selfId) :
    (handleActiveClaim1 w1 p now).isActive = (handleActiveClaim2 w2 p).isActive ∧
    (handleActiveClaim1 w1 p now).sent.drop w1.sent.length =
      (handleActiveClaim2 w2 p).sent.drop w2.sent.length := by
  have h1 : p ≠ w1.selfId := by
    rw [hid]
    exact h
  refine ⟨?_, ?_⟩
  · rw [handleActiveClaim1_isActive _ _ _ h1, handleActiveClaim2_isActive _ _ h,
      hid, hact]
  · rw [handleActiveClaim1_sent _ _ _ h1, handleActiveClaim2_sent _ _ h,
      List.drop_left, List.drop_left, hid, hact]

/-- Witness for C10 at the concrete input: both variants as active peer
`"B"` receiving `claim("A")`. -/
theorem c10_variant_equivalence_witness :
    (handleActiveClaim1 sampleW1 "A" 7).isActive =
      (handleActiveClaim2 sampleW2 "A").isActive ∧
    (handleActiveClaim1 sampleW1 "A" 7).sent.drop sampleW1.sent.length =
      (handleActiveClaim2 sampleW2 "A").sent.drop sampleW2.sent.length :=
  c10_variant_equivalence sampleW1 sampleW2 "A" 7 (by decide) (by decide) (by decide)

/-- C1 (code bug in both variants): `destroy` is not idempotent.  The
first call posts `goodbye` and closes the channel; the second call
unconditionally posts `goodbye` again, now on the closed channel, which
throws `InvalidStateError` instead of being a no-op.  Evaluated on a
freshly constructed peer of each variant. -/
theorem c1_destroy_not_idempotent :
    (∃ w', destroy1 (init1 "A" 0) = Except.ok w' ∧ w'.channelClosed = true ∧
       destroy1 w' = Except.error "InvalidStateError") ∧
    (∃ w', destroy2 (init2 "A" 0) = Except.ok w' ∧ w'.channelClosed = true ∧
       destroy2 w' = Except.error "InvalidStateError") :=
  ⟨⟨_, rfl, rfl, rfl⟩, ⟨_, rfl, rfl, rfl⟩⟩

/-- A dormant variant-2 peer `"B"` with no tracked peers. -/
def dormantB : W2 :=
  { selfId := "B", isActive := false, instances := [], hb := Store.empty,
    sent := [], notes := [], heartbeatOn := true, channelClosed := false }

/-- C2 counterexample: a dormant variant-2 peer `"B"` observes
`claim("A")` during its grace window and still transitions to ACTIVE and
broadcasts `claim("B")` when the window ends — the claim says it should
remain DORMANT after observing a claim. -/
theorem c2_counterexample_observed_claim_ignored :
    (handleActiveClaim2 dormantB "A").isActive = false ∧
    (graceElapsed2 (handleActiveClaim2 dormantB "A")).isActive = true ∧
    BMsg.claimActive "B" ∈ (graceElapsed2 (handleActiveClaim2 dormantB "A")).sent := by
  decide

/-- C2 (amended): at the end of the grace window, variant 2 transitions to
ACTIVE and broadcasts `claim(self)` if and only if it is not already
ACTIVE — whether a claim was observed plays no role.  Variant 1 promotes
if and only if it is not ACTIVE and no `ActiveOwner` record is present in
the durable store.  An already-ACTIVE peer is left unchanged and nothing
is broadcast. -/
theorem c2_grace_window (w1 : W1) (w2 : W2) :
    (graceElapsed2 w2).isActive = true ∧
    (graceElapsed2 w2).sent =
      w2.sent ++ (if w2.isActive = true then [] else [BMsg.claimActive w2.selfId]) ∧
    ((graceElapsed1 w1).isActive = true ↔
      (w1.isActive = true ∨ w1.activeRec = none)) ∧
    (graceElapsed1 w1).sent =
      w1.sent ++ (if w1.isActive = false ∧ w1.activeRec = none
                  then [BMsg.claimActive w1.selfId] else []) := by
  refine ⟨graceElapsed2_isActive w2, graceElapsed2_sent w2, ?_, ?_⟩
  · cases hA : w1.isActive <;> cases hR : w1.activeRec <;>
      simp [graceElapsed1, hasActiveInstance1, becomeActive1,
        broadcastActiveClaim1, post1, notify1, hA, hR]
  · cases hA : w1.isActive <;> cases hR : w1.activeRec <;>
      simp [graceElapsed1, hasActiveInstance1, becomeActive1,
        broadcastActiveClaim1, post1, notify1, hA, hR]

/-- C7 counterexample: the active variant-2 peer `"B"` receives
`claim("A")` and is demoted — one logical transition — but the consumer
callback fires twice (once inside `becomeDormant`, once at the end of
`handleActiveClaim`), refuting "no transition produces more than one
notification". -/
theorem c7_counterexample_double_notification :
    sampleW2.isActive = true ∧
    (handleActiveClaim2 sampleW2 "A").isActive = false ∧
    sampleW2.notes.length = 0 ∧
    (handleActiveClaim2 sampleW2 "A").notes.length = 2 := by
  decide

theorem notifyIf_notes (c : Prop) [Decidable c] (v : W2) :
    (notify2 (if c then becomeActive2 v else v)).notes.length =
      v.notes.length + (if c then 2 else 1) := by
  split <;> simp [becomeActive2, broadcastActiveClaim2, post2, notify2]

/-- C7 (amended): every state-changing event produces at least one
notification, but not exactly one: in variant 2, `announce` from a new
peer notifies once; `claim` from `p ≠ self` notifies once when self is
active with priority, and twice otherwise (the demotion path notifies
inside `becomeDormant` and again at the end of the handler); `goodbye`
notifies twice when it triggers promotion and once otherwise; the
heartbeat-driven scan notifies zero times when no peer is evicted, twice
when an eviction triggers promotion (`becomeActive` notifies and the scan
notifies again), and once otherwise.  Each notification carries the
current `{isActive, instanceCount}` snapshot. -/
theorem c7_notification_counts (w : W2) (p : String) (now : Nat)
    (h : p ≠ w.selfId) :
    (handleAnnounce2 w p).notes.length = w.notes.length + 1 ∧
    (handleActiveClaim2 w p).notes.length =
      w.notes.length + (if (w.isActive && ! jsLt p w.selfId) = true then 1 else 2) ∧
    (handleGoodbye2 w p).notes.length =
      w.notes.length +
        (if (!w.isActive && (jsLt p w.selfId || decide (w.instances.length = 1))) = true
         then 2 else 1) ∧
    (checkForCrashedInstances2 w now).notes.length =
      w.notes.length +
        (if w.instances.filter (fun i => evictCond2 w now i) = [] then 0
         else if w.isActive = false ∧
                w.instances.filter (fun i => ! evictCond2 w now i) = [] then 2
         else 1) := by
  refine ⟨?_, ?_, ?_, ?_⟩
  · unfold handleAnnounce2
    rw [if_pos h]
    cases hA : w.isActive <;>
      simp [broadcastActiveClaim2, post2, notify2, hA]
  · unfold handleActiveClaim2
    rw [if_pos h]
    cases hA : w.isActive <;> cases hL : jsLt p w.selfId <;>
      simp [becomeDormant2, broadcastActiveClaim2, post2, notify2, hA, hL]
  · unfold handleGoodbye2
    cases hA : w.isActive <;>
      cases hW : (jsLt p w.selfId || decide (w.instances.length = 1)) <;>
        simp [becomeActive2, broadcastActiveClaim2, post2, notify2,
          removeHeartbeat2, hA, hW]
  · rcases hcr : w.instances.filter (fun i => evictCond2 w now i) with _ | ⟨a, rest⟩
    · unfold checkForCrashedInstances2
      dsimp only
      rw [hcr, if_pos (show (List.isEmpty ([] : List String)) = true from rfl)]
      simp
    · unfold checkForCrashedInstances2
      dsimp only
      rw [hcr, if_neg (by simp : ¬ (List.isEmpty (a :: rest) = true))]
      rw [notifyIf_notes]
      dsimp only
      rcases hf2 : w.instances.filter (fun i => ! evictCond2 w now i) with _ | ⟨b, brest⟩ <;>
        cases hA : w.isActive <;> simp [hA]

/-- Witness for C7 at the concrete input: active peer `"B"` receiving
events about peer `"A"`, and its scan run at time 0. -/
theorem c7_notification_counts_witness :
    (handleAnnounce2 sampleW2 "A").notes.length = sampleW2.notes.length + 1 ∧
    (handleActiveClaim2 sampleW2 "A").notes.length =
      sampleW2.notes.length +
        (if (sampleW2.isActive && ! jsLt "A" sampleW2.selfId) = true then 1 else 2) ∧
    (handleGoodbye2 sampleW2 "A").notes.length =
      sampleW2.notes.length +
        (if (!sampleW2.isActive &&
              (jsLt "A" sampleW2.selfId || decide (sampleW2.instances.length = 1))) = true
         then 2 else 1) ∧
    (checkForCrashedInstances2 sampleW2 0).notes.length =
      sampleW2.notes.length +
        (if sampleW2.instances.filter (fun i => evictCond2 sampleW2 0 i) = [] then 0
         else if sampleW2.isActive = false ∧
                sampleW2.instances.filter (fun i => ! evictCond2 sampleW2 0 i) = [] then 2
         else 1) :=
  c7_notification_counts sampleW2 "A" 0 (by decide)

theorem activeStaleCheck1_instances (w : W1) (now : Nat) (c : Bool) :
    (activeStaleCheck1 w now c).instances = w.instances := by
  unfold activeStaleCheck1 finishScan1
  repeat' split
  all_goals simp only [becomeActive1, broadcastActiveClaim1, post1, notify1]
  all_goals try split_ifs
  all_goals rfl

theorem activeStaleCheck1_seen (w : W1) (now : Nat) (c : Bool) :
    (activeStaleCheck1 w now c).seen = w.seen := by
  unfold activeStaleCheck1 finishScan1
  repeat' split
  all_goals simp only [becomeActive1, broadcastActiveClaim1, post1, notify1]
  all_goals try split_ifs
  all_goals rfl

theorem activeStaleCheck1_isActive (w : W1) (now : Nat) (c : Bool) :
    ((activeStaleCheck1 w now c).isActive = true ↔
      (w.isActive = true ∨
       ∃ aid t, w.activeRec = some aid ∧ aid ≠ w.selfId ∧ w.seen aid = some t ∧
         (t != 0) = true ∧ now - t > HEARTBEAT_TIMEOUT)) := by
  rcases hR : w.activeRec with _ | aid
  · unfold activeStaleCheck1 finishScan1
    rw [hR]
    dsimp only
    split <;> simp [notify1, hR]
  · by_cases hself : aid ≠ w.selfId
    · rcases hT : getLastSeen1 w aid with _ | t
      · unfold activeStaleCheck1 finishScan1
        rw [hR]
        dsimp only
        rw [if_pos hself, hT]
        dsimp only
        split <;> simp [notify1, hR, show w.seen aid = none from hT]
      · by_cases hstale : ((t != 0) && decide (now - t > HEARTBEAT_TIMEOUT)) = true
        · unfold activeStaleCheck1 finishScan1
          rw [hR]
          dsimp only
          rw [if_pos hself, hT]
          dsimp only
          rw [if_pos hstale]
          have hand := hstale
          rw [Bool.and_eq_true] at hand
          obtain ⟨ht0, hgt0⟩ := hand
          have ht0' : ¬ t = 0 := by simpa using ht0
          cases hA : w.isActive <;>
            simp [becomeActive1, broadcastActiveClaim1, post1, notify1, hA, hR,
              hself, show w.seen aid = some t from hT, ht0', of_decide_eq_true hgt0]
        · unfold activeStaleCheck1 finishScan1
          rw [hR]
          dsimp only
          rw [if_pos hself, hT]
          dsimp only
          rw [if_neg hstale]
          have hns : ¬ ((t != 0) = true ∧ now - t > HEARTBEAT_TIMEOUT) := by
            intro hx
            apply hstale
            rw [Bool.and_eq_true]
            exact ⟨hx.1, decide_eq_true hx.2⟩
          have hRHS : (w.isActive = true ∨
              ∃ aid' t', some aid = some aid' ∧ aid' ≠ w.selfId ∧
                w.seen aid' = some t' ∧ (t' != 0) = true ∧
                now - t' > HEARTBEAT_TIMEOUT) ↔ w.isActive = true := by
            constructor
            · rintro (hx | ⟨aid', t', ha', hne', ht', h0', hg'⟩)
              · exact hx
              · injection ha' with he
                subst he
                rw [show w.seen aid = some t from hT] at ht'
                injection ht' with he2
                subst he2
                exact absurd ⟨h0', hg'⟩ hns
            · exact Or.inl
          refine Iff.trans ?_ hRHS.symm
          split <;> simp [notify1]
    · unfold activeStaleCheck1 finishScan1
      rw [hR]
      dsimp only
      rw [if_neg hself]
      have hself' : aid = w.selfId := not_ne_iff.mp hself
      split <;> simp [notify1, hR, hself']

/-- A dormant variant-2 peer `"S"` tracking `"X"` for which no heartbeat
record exists. -/
def trackerS : W2 :=
  { selfId := "S", isActive := false, instances := ["X"], hb := Store.empty,
    sent := [], notes := [], heartbeatOn := true, channelClosed := false }

/-- C5 counterexample: variant 2's scan evicts the tracked peer `"X"`
although `"X"` has no heartbeat record at all — so no record age exceeds
the timeout threshold, refuting "removed if and only if its heartbeat
record's age exceeds the timeout threshold". -/
theorem c5_counterexample_missing_record_evicted :
    "X" ∈ trackerS.instances ∧
    trackerS.hb "X" = none ∧
    "X" ∉ (checkForCrashedInstances2 trackerS 0).instances := by
  decide

/-- C5 (amended): during the scan, a tracked peer is kept by variant 1 iff
its record is absent or fresh (eviction needs a record whose age exceeds
the threshold), while variant 2 keeps it iff a record exists and is fresh
(a missing record also counts as crashed); in both variants an evicted
peer's record is deleted.  Records are assumed to hold positive timestamps
(as `Date.now()` values always are). -/
theorem notifyIf_instances (c : Prop) [Decidable c] (v : W2) :
    (notify2 (if c then becomeActive2 v else v)).instances = v.instances := by
  split <;> simp [becomeActive2, broadcastActiveClaim2, post2, notify2]

theorem notifyIf_hb (c : Prop) [Decidable c] (v : W2) :
    (notify2 (if c then becomeActive2 v else v)).hb = v.hb := by
  split <;> simp [becomeActive2, broadcastActiveClaim2, post2, notify2]

theorem notifyIf_isActive (c : Prop) [Decidable c] (v : W2) :
    (notify2 (if c then becomeActive2 v else v)).isActive =
      (if c then true else v.isActive) := by
  split <;> simp [becomeActive2, broadcastActiveClaim2, post2, notify2]

theorem c5_eviction_characterization (w1 : W1) (w2 : W2) (now : Nat) (id : String)
    (hpos1 : ∀ t, w1.seen id = some t → 0 < t)
    (hpos2 : ∀ t, w2.hb id = some t → 0 < t) :
    (id ∈ (cleanupStaleInstances1 w1 now).instances ↔
      id ∈ w1.instances ∧
        ¬ ∃ t, w1.seen id = some t ∧ now - t > HEARTBEAT_TIMEOUT) ∧
    (id ∈ (checkForCrashedInstances2 w2 now).instances ↔
      id ∈ w2.instances ∧
        ∃ t, w2.hb id = some t ∧ ¬ now - t > HEARTBEAT_TIMEOUT) ∧
    (id ∈ w1.instances → id ∉ (cleanupStaleInstances1 w1 now).instances →
      (cleanupStaleInstances1 w1 now).seen id = none) ∧
    (id ∈ w2.instances → id ∉ (checkForCrashedInstances2 w2 now).instances →
      (checkForCrashedInstances2 w2 now).hb id = none) := by
  have hc1 : (! evictCond1 w1 now id) = true ↔
      ¬ ∃ t, w1.seen id = some t ∧ now - t > HEARTBEAT_TIMEOUT := by
    unfold evictCond1 getLastSeen1
    rcases hS : w1.seen id with _ | t
    · simp
    · have hp := hpos1 t hS
      simp [hp.ne']
  have hc2 : (! evictCond2 w2 now id) = true ↔
      ∃ t, w2.hb id = some t ∧ ¬ now - t > HEARTBEAT_TIMEOUT := by
    unfold evictCond2
    rcases hS : w2.hb id with _ | t
    · simp
    · have hp := hpos2 t hS
      simp [hp.ne']
  have hmem1 : id ∈ (cleanupStaleInstances1 w1 now).instances ↔
      id ∈ w1.instances ∧ (! evictCond1 w1 now id) = true := by
    unfold cleanupStaleInstances1
    dsimp only
    rw [activeStaleCheck1_instances]
    exact List.mem_filter
  have hseen1 : (cleanupStaleInstances1 w1 now).seen =
      fun k => if k ∈ w1.instances.filter (fun i => evictCond1 w1 now i)
               then none else w1.seen k := by
    unfold cleanupStaleInstances1
    dsimp only
    rw [activeStaleCheck1_seen]
  refine ⟨hmem1.trans (and_congr_right fun _ => hc1), ?_, ?_, ?_⟩
  · rcases hcr : w2.instances.filter (fun i => evictCond2 w2 now i) with _ | ⟨a, rest⟩
    · have hall : ∀ x ∈ w2.instances, evictCond2 w2 now x = false := by
        intro x hx
        by_contra hbx
        have : x ∈ w2.instances.filter (fun i => evictCond2 w2 now i) :=
          List.mem_filter.mpr ⟨hx, eq_true_of_ne_false hbx⟩
        rw [hcr] at this
        exact absurd this (List.not_mem_nil x)
      unfold checkForCrashedInstances2
      dsimp only
      rw [hcr, if_pos (show (List.isEmpty ([] : List String)) = true from rfl)]
      constructor
      · intro hx
        refine ⟨hx, ?_⟩
        have hfid := hall id hx
        rw [← Bool.not_eq_true'] at hfid
        exact hc2.mp hfid
      · exact And.left
    · unfold checkForCrashedInstances2
      dsimp only
      rw [hcr, if_neg (by simp : ¬ (List.isEmpty (a :: rest) = true))]
      rw [notifyIf_instances]
      dsimp only
      rw [List.mem_filter]
      exact and_congr_right fun _ => hc2
  · intro hin hout
    rw [hseen1]
    rw [hmem1] at hout
    have hev : ¬ (! evictCond1 w1 now id) = true := fun hcond => hout ⟨hin, hcond⟩
    rw [Bool.not_eq_true, Bool.not_eq_false'] at hev
    have hidf : id ∈ w1.instances.filter (fun i => evictCond1 w1 now i) :=
      List.mem_filter.mpr ⟨hin, hev⟩
    simp [hidf]
  · intro hin hout
    rcases hcr : w2.instances.filter (fun i => evictCond2 w2 now i) with _ | ⟨a, rest⟩
    · exfalso
      apply hout
      unfold checkForCrashedInstances2
      dsimp only
      rw [hcr, if_pos (show (List.isEmpty ([] : List String)) = true from rfl)]
      exact hin
    · have hev : evictCond2 w2 now id = true := by
        by_contra hbx
        apply hout
        unfold checkForCrashedInstances2
        dsimp only
        rw [hcr, if_neg (by simp : ¬ (List.isEmpty (a :: rest) = true))]
        rw [notifyIf_instances]
        dsimp only
        rw [List.mem_filter]
        refine ⟨hin, ?_⟩
        rw [Bool.not_eq_true']
        exact eq_false_of_ne_true hbx
      have hidc : id ∈ a :: rest := by
        rw [← hcr]
        exact List.mem_filter.mpr ⟨hin, hev⟩
      unfold checkForCrashedInstances2
      dsimp only
      rw [hcr, if_neg (by simp : ¬ (List.isEmpty (a :: rest) = true))]
      rw [notifyIf_hb]
      dsimp only
      rw [if_pos hidc]

/-- A dormant variant-1 peer `"S"` tracking `"X"` with a positive last-seen
record. -/
def scanW1 : W1 :=
  { selfId := "S", isActive := false, instances := ["X"], activeRec := none,
    seen := Store.empty.set "X" 1, sent := [], notes := [],
    heartbeatOn := true, channelClosed := false }

/-- A dormant variant-2 peer `"S"` tracking `"X"` with a positive heartbeat
record. -/
def scanW2 : W2 :=
  { selfId := "S", isActive := false, instances := ["X"],
    hb := Store.empty.set "X" 1, sent := [], notes := [],
    heartbeatOn := true, channelClosed := false }

/-- Witness for C5 at the concrete input: both scans run at time 9000 over
a peer `"X"` whose record was written at time 1 (stale). -/
theorem c5_eviction_characterization_witness :
    ("X" ∈ (cleanupStaleInstances1 scanW1 9000).instances ↔
      "X" ∈ scanW1.instances ∧
        ¬ ∃ t, scanW1.seen "X" = some t ∧ 9000 - t > HEARTBEAT_TIMEOUT) ∧
    ("X" ∈ (checkForCrashedInstances2 scanW2 9000).instances ↔
      "X" ∈ scanW2.instances ∧
        ∃ t, scanW2.hb "X" = some t ∧ ¬ 9000 - t > HEARTBEAT_TIMEOUT) ∧
    ("X" ∈ scanW1.instances → "X" ∉ (cleanupStaleInstances1 scanW1 9000).instances →
      (cleanupStaleInstances1 scanW1 9000).seen "X" = none) ∧
    ("X" ∈ scanW2.instances → "X" ∉ (checkForCrashedInstances2 scanW2 9000).instances →
      (checkForCrashedInstances2 scanW2 9000).hb "X" = none) :=
  c5_eviction_characterization scanW1 scanW2 9000 "X"
    (by
      intro t h
      rw [show scanW1.seen "X" = some 1 from rfl] at h
      injection h with h2
      omega)
    (by
      intro t h
      rw [show scanW2.hb "X" = some 1 from rfl] at h
      injection h with h2
      omega)

/-- A dormant variant-2 peer `"S"` tracking `"A"` (no heartbeat record —
stale) and `"Q"` (fresh record at time 100). -/
def scanPairW2 : W2 :=
  { selfId := "S", isActive := false, instances := ["A", "Q"],
    hb := Store.empty.set "Q" 100, sent := [], notes := [],
    heartbeatOn := true, channelClosed := false }

/-- C6 counterexample: the scan of the dormant variant-2 peer `"S"` evicts
`"A"` — the peer its own goodbye-handler heuristic would have presumed
active, since `"A" < "S"` — yet because `"Q"` remains tracked, no
promotion is attempted, refuting "promotes ... when ... the evicted peer
was the presumed active one". -/
theorem c6_counterexample_no_promotion_after_evicting_presumed_active :
    scanPairW2.isActive = false ∧
    "A" ∈ scanPairW2.instances ∧
    jsLt "A" scanPairW2.selfId = true ∧
    "A" ∉ (checkForCrashedInstances2 scanPairW2 100).instances ∧
    (checkForCrashedInstances2 scanPairW2 100).instances = ["Q"] ∧
    (checkForCrashedInstances2 scanPairW2 100).isActive = false := by
  decide

/-- C6 (amended): variant 2's scan leaves the peer active exactly when it
already was active or at least one peer was evicted and no tracked peer
remains (whether an evicted peer was "the presumed active one" plays no
role); variant 1's scan leaves the peer active exactly when it already was
active or the `ActiveOwner` record names a peer other than self whose
last-seen record survives the eviction loop and is stale (the remaining
tracked-peer count plays no role).  In particular the scan never demotes. -/
theorem c6_promotion_characterization (w1 : W1) (w2 : W2) (now : Nat) :
    ((checkForCrashedInstances2 w2 now).isActive = true ↔
      (w2.isActive = true ∨
       (w2.instances.filter (fun i => evictCond2 w2 now i) ≠ [] ∧
        w2.instances.filter (fun i => ! evictCond2 w2 now i) = []))) ∧
    ((cleanupStaleInstances1 w1 now).isActive = true ↔
      (w1.isActive = true ∨
       ∃ aid t, w1.activeRec = some aid ∧ aid ≠ w1.selfId ∧
         aid ∉ w1.instances.filter (fun i => evictCond1 w1 now i) ∧
         w1.seen aid = some t ∧ (t != 0) = true ∧
         now - t > HEARTBEAT_TIMEOUT)) := by
  constructor
  · rcases hcr : w2.instances.filter (fun i => evictCond2 w2 now i) with _ | ⟨a, rest⟩
    · unfold checkForCrashedInstances2
      dsimp only
      rw [hcr, if_pos (show (List.isEmpty ([] : List String)) = true from rfl)]
      simp
    · unfold checkForCrashedInstances2
      dsimp only
      rw [hcr, if_neg (by simp : ¬ (List.isEmpty (a :: rest) = true))]
      rw [notifyIf_isActive]
      dsimp only
      rcases hf2 : w2.instances.filter (fun i => ! evictCond2 w2 now i) with _ | ⟨b, brest⟩ <;>
        cases hA : w2.isActive <;> simp [hA]
  · unfold cleanupStaleInstances1
    dsimp only
    rw [activeStaleCheck1_isActive]
    dsimp only
    constructor
    · rintro (h | ⟨aid, t, hrec, hne, hif, h0, hg⟩)
      · exact Or.inl h
      · by_cases haf : aid ∈ w1.instances.filter (fun i => evictCond1 w1 now i)
        · rw [if_pos haf] at hif
          cases hif
        · rw [if_neg haf] at hif
          exact Or.inr ⟨aid, t, hrec, hne, haf, hif, h0, hg⟩
    · rintro (h | ⟨aid, t, hrec, hne, haf, hseen, h0, hg⟩)
      · exact Or.inl h
      · refine Or.inr ⟨aid, t, hrec, hne, ?_, h0, hg⟩
        rw [if_neg haf]
        exact hseen

theorem not_mem_foldl_setAdd (s : String) (ids : List String) (acc : List String)
    (h : s ∉ acc) :
    s ∉ ids.foldl (fun a id => if id ≠ s then setAdd a id else a) acc := by
  induction ids generalizing acc with
  | nil => exact h
  | cons x xs ih =>
    simp only [List.foldl_cons]
    by_cases hx : x ≠ s
    · rw [if_pos hx]
      exact ih _ (not_mem_setAdd (Ne.symm hx) h)
    · rw [if_neg hx]
      exact ih _ h

/-- C9: the invariant "self's own instanceId is never a member of the
instances set" holds in the initial state and is preserved by every
variant-1 message handler — announce, claim, goodbye, heartbeat and
instance_list — given that the inbound message's peerId differs from
self's id (the instance_list handler filters self out by itself). -/
theorem c9_self_never_tracked (w : W1) (p : String) (ids : List String)
    (now : Nat) (selfId : String)
    (hp : p ≠ w.selfId) (hw : w.selfId ∉ w.instances) :
    w.selfId ∉ (handleAnnounce1 w p now).instances ∧
    w.selfId ∉ (handleActiveClaim1 w p now).instances ∧
    w.selfId ∉ (handleGoodbye1 w p).instances ∧
    w.selfId ∉ (handleHeartbeat1 w p now).instances ∧
    w.selfId ∉ (handleInstanceList1 w ids).instances ∧
    selfId ∉ (init1 selfId now).instances := by
  have hinit : (init1 selfId now).instances = [] := by
    unfold init1 cleanupStaleInstances1
    dsimp only
    rw [activeStaleCheck1_instances]
    rfl
  refine ⟨?_, ?_, ?_, ?_, ?_, ?_⟩
  · have : (handleAnnounce1 w p now).instances = setAdd w.instances p := by
      unfold handleAnnounce1
      rw [if_pos hp]
      dsimp only
      split <;>
        simp [updateLastSeen1, broadcastActiveClaim1, broadcastInstanceList1,
          post1, notify1]
    rw [this]
    exact not_mem_setAdd (Ne.symm hp) hw
  · rw [handleActiveClaim1_instances w p now hp]
    exact not_mem_setAdd (Ne.symm hp) hw
  · have : (handleGoodbye1 w p).instances = setDelete w.instances p := by
      unfold handleGoodbye1
      dsimp only
      split <;>
        simp [removeLastSeen1, becomeActive1, broadcastActiveClaim1, post1,
          notify1]
    rw [this]
    intro hm
    exact hw (List.mem_of_mem_erase hm)
  · have : (handleHeartbeat1 w p now).instances = setAdd w.instances p := by
      unfold handleHeartbeat1
      rw [if_pos hp]
      simp [updateLastSeen1, notify1]
    rw [this]
    exact not_mem_setAdd (Ne.symm hp) hw
  · have : (handleInstanceList1 w ids).instances =
        ids.foldl (fun a id => if id ≠ w.selfId then setAdd a id else a)
          w.instances := by
      simp [handleInstanceList1, notify1]
    rw [this]
    exact not_mem_foldl_setAdd _ _ _ hw
  · rw [hinit]
    exact List.not_mem_nil selfId

/-- Witness for C9 at the concrete input: peer `"B"` with an empty peer
set, inbound peerId `"A"`, an instance_list containing self, and a fresh
peer `"Z"`. -/
theorem c9_self_never_tracked_witness :
    sampleW1.selfId ∉ (handleAnnounce1 sampleW1 "A" 5).instances ∧
    sampleW1.selfId ∉ (handleActiveClaim1 sampleW1 "A" 5).instances ∧
    sampleW1.selfId ∉ (handleGoodbye1 sampleW1 "A").instances ∧
    sampleW1.selfId ∉ (handleHeartbeat1 sampleW1 "A" 5).instances ∧
    sampleW1.selfId ∉ (handleInstanceList1 sampleW1 ["A", "B"]).instances ∧
    "Z" ∉ (init1 "Z" 5).instances :=
  c9_self_never_tracked sampleW1 "A" ["A", "B"] 5 "Z" (by decide) (by decide)

/-! ### C4: two-peer convergence (variant 2)

A closed system of two variant-2 peers `a` and `b` exchanging messages
over the broadcast channel.  `inflightA` holds the messages posted by `b`
and not yet delivered to `a` (and symmetrically `inflightB`); delivery
order is arbitrary.  `graceA`/`graceB` record whether each peer's one-shot
startup grace window has fired.  Heartbeat records stay fresh throughout
the (sub-second) startup scenario, so the periodic crash scan never evicts
anyone and is omitted from the step relation. -/

/-- Dispatch of a received message per variant 2's `setupChannel`
(lines 362-378): only `announce`, `claim_active` and `goodbye` have
handlers. -/
def dispatch2 (w : W2) (m : BMsg) : W2 :=
  match m with
  | .announce id => handleAnnounce2 w id
  | .claimActive id => handleActiveClaim2 w id
  | .goodbye id => handleGoodbye2 w id
  | _ => w

/-- The broadcasts a handler step appended to the peer's `sent` log. -/
def emitted (w w' : W2) : List BMsg := w'.sent.drop w.sent.length

/-- The two-peer system state. -/
structure Sys where
  a : W2
  b : W2
  inflightA : List BMsg
  inflightB : List BMsg
  graceA : Bool
  graceB : Bool

/-- Deliver message `m` to peer `a`; its emissions go in flight to `b`. -/
def deliverToA (s : Sys) (m : BMsg) : Sys :=
  { s with a := dispatch2 s.a m, inflightA := s.inflightA.erase m,
           inflightB := s.inflightB ++ emitted s.a (dispatch2 s.a m) }

/-- Deliver message `m` to peer `b`; its emissions go in flight to `a`. -/
def deliverToB (s : Sys) (m : BMsg) : Sys :=
  { s with b := dispatch2 s.b m, inflightB := s.inflightB.erase m,
           inflightA := s.inflightA ++ emitted s.b (dispatch2 s.b m) }

/-- Peer `a`'s grace window fires (once). -/
def fireGraceA (s : Sys) : Sys :=
  { s with a := graceElapsed2 s.a, graceA := true,
           inflightB := s.inflightB ++ emitted s.a (graceElapsed2 s.a) }

/-- Peer `b`'s grace window fires (once). -/
def fireGraceB (s : Sys) : Sys :=
  { s with b := graceElapsed2 s.b, graceB := true,
           inflightA := s.inflightA ++ emitted s.b (graceElapsed2 s.b) }

/-- One interleaving step: deliver any in-flight message, or fire a grace
window that has not fired yet. -/
inductive Step : Sys → Sys → Prop where
  | deliverA {s : Sys} (m : BMsg) (h : m ∈ s.inflightA) : Step s (deliverToA s m)
  | deliverB {s : Sys} (m : BMsg) (h : m ∈ s.inflightB) : Step s (deliverToB s m)
  | fireA {s : Sys} (h : s.graceA = false) : Step s (fireGraceA s)
  | fireB {s : Sys} (h : s.graceB = false) : Step s (fireGraceB s)

/-- Reachability under arbitrary interleavings. -/
def Reaches : Sys → Sys → Prop := Relation.ReflTransGen Step

/-- Both peers constructed (each announced; both announces in flight). -/
def initSys (idA idB : String) : Sys :=
  { a := init2 idA 0, b := init2 idB 0,
    inflightA := [BMsg.announce idB], inflightB := [BMsg.announce idA],
    graceA := false, graceB := false }

/-- No message in flight and both grace windows fired. -/
def Quiescent (s : Sys) : Prop :=
  s.graceA = true ∧ s.graceB = true ∧ s.inflightA = [] ∧ s.inflightB = []

/-- The convergence invariant for ids `idA < idB`. -/
def Inv (idA idB : String) (s : Sys) : Prop :=
  s.a.selfId = idA ∧ s.b.selfId = idB ∧
  (∀ m ∈ s.inflightA, m = BMsg.announce idB ∨ m = BMsg.claimActive idB) ∧
  (∀ m ∈ s.inflightB, m = BMsg.announce idA ∨ m = BMsg.claimActive idA) ∧
  s.a.isActive = s.graceA ∧
  (s.b.isActive = true → s.graceB = true) ∧
  (s.b.isActive = true →
    BMsg.claimActive idA ∈ s.inflightB ∨ s.graceA = false ∨
    BMsg.claimActive idB ∈ s.inflightA)

theorem emitted_announce2 (w : W2) (id : String) (h : id ≠ w.selfId) :
    emitted w (handleAnnounce2 w id) =
      (if w.isActive = true then [BMsg.claimActive w.selfId] else []) := by
  unfold emitted
  rw [handleAnnounce2_sent w id h, List.drop_left]

theorem emitted_claim2 (w : W2) (id : String) (h : id ≠ w.selfId) :
    emitted w (handleActiveClaim2 w id) =
      (if (w.isActive && ! jsLt id w.selfId) = true
       then [BMsg.claimActive w.selfId] else []) := by
  unfold emitted
  rw [handleActiveClaim2_sent w id h, List.drop_left]

theorem emitted_grace2 (w : W2) :
    emitted w (graceElapsed2 w) =
      (if w.isActive = true then [] else [BMsg.claimActive w.selfId]) := by
  unfold emitted
  rw [graceElapsed2_sent, List.drop_left]

theorem inv_initSys (idA idB : String) : Inv idA idB (initSys idA idB) := by
  refine ⟨rfl, rfl, ?_, ?_, rfl, ?_, ?_⟩
  · intro m hm
    exact Or.inl (List.mem_singleton.mp hm)
  · intro m hm
    exact Or.inl (List.mem_singleton.mp hm)
  · intro hb
    simp [initSys, init2] at hb
  · intro hb
    simp [initSys, init2] at hb

theorem inv_step (idA idB : String) (hlt : jsLt idA idB = true) {s s' : Sys}
    (hI : Inv idA idB s) (hs : Step s s') : Inv idA idB s' := by
  obtain ⟨hsa, hsb, hfa, hfb, hag, hbg, hbc⟩ := hI
  have hne : idA ≠ idB := jsLt_ne hlt
  have hba : jsLt idB idA = false := jsLt_asymm hlt
  cases hs with
  | deliverA m hm =>
    rcases hfa m hm with hmeq | hmeq <;> subst hmeq <;>
      unfold deliverToA Inv <;> dsimp only
    · -- announce idB delivered to a
      have hid : idB ≠ s.a.selfId := by
        rw [hsa]
        exact hne.symm
      have hemit : emitted s.a (dispatch2 s.a (BMsg.announce idB)) =
          (if s.a.isActive = true then [BMsg.claimActive idA] else []) := by
        show emitted s.a (handleAnnounce2 s.a idB) = _
        rw [emitted_announce2 s.a idB hid, hsa]
      refine ⟨?_, hsb, ?_, ?_, ?_, hbg, ?_⟩
      · show (handleAnnounce2 s.a idB).selfId = idA
        rw [handleAnnounce2_selfId, hsa]
      · intro x hx
        exact hfa x (List.mem_of_mem_erase hx)
      · intro x hx
        rcases List.mem_append.mp hx with hx' | hx'
        · exact hfb x hx'
        · rw [hemit] at hx'
          by_cases hsact : s.a.isActive = true
          · rw [if_pos hsact] at hx'
            exact Or.inr (List.mem_singleton.mp hx')
          · rw [if_neg hsact] at hx'
            exact absurd hx' (List.not_mem_nil x)
      · show (handleAnnounce2 s.a idB).isActive = s.graceA
        rw [handleAnnounce2_isActive]
        exact hag
      · intro hb
        rcases hbc hb with h | h | h
        · exact Or.inl (List.mem_append_left _ h)
        · exact Or.inr (Or.inl h)
        · refine Or.inr (Or.inr ?_)
          exact (List.mem_erase_of_ne (by simp)).mpr h
    · -- claim_active idB delivered to a
      have hid : idB ≠ s.a.selfId := by
        rw [hsa]
        exact hne.symm
      have hactA : (dispatch2 s.a (BMsg.claimActive idB)).isActive = s.a.isActive := by
        show (handleActiveClaim2 s.a idB).isActive = s.a.isActive
        rw [handleActiveClaim2_isActive s.a idB hid, hsa, hba]
        simp
      have hemit : emitted s.a (dispatch2 s.a (BMsg.claimActive idB)) =
          (if s.a.isActive = true then [BMsg.claimActive idA] else []) := by
        show emitted s.a (handleActiveClaim2 s.a idB) = _
        rw [emitted_claim2 s.a idB hid, hsa, hba]
        simp
      refine ⟨?_, hsb, ?_, ?_, ?_, hbg, ?_⟩
      · show (handleActiveClaim2 s.a idB).selfId = idA
        rw [handleActiveClaim2_selfId, hsa]
      · intro x hx
        exact hfa x (List.mem_of_mem_erase hx)
      · intro x hx
        rcases List.mem_append.mp hx with hx' | hx'
        · exact hfb x hx'
        · rw [hemit] at hx'
          by_cases hsact : s.a.isActive = true
          · rw [if_pos hsact] at hx'
            exact Or.inr (List.mem_singleton.mp hx')
          · rw [if_neg hsact] at hx'
            exact absurd hx' (List.not_mem_nil x)
      · rw [hactA]
        exact hag
      · intro hb
        rcases hbc hb with h | h | h
        · exact Or.inl (List.mem_append_left _ h)
        · exact Or.inr (Or.inl h)
        · by_cases hsact : s.a.isActive = true
          · refine Or.inl (List.mem_append_right _ ?_)
            rw [hemit, if_pos hsact]
            exact List.mem_singleton.mpr rfl
          · refine Or.inr (Or.inl ?_)
            rw [← hag]
            exact Bool.not_eq_true _ ▸ hsact
  | deliverB m hm =>
    rcases hfb m hm with hmeq | hmeq <;> subst hmeq <;>
      unfold deliverToB Inv <;> dsimp only
    · -- announce idA delivered to b
      have hid : idA ≠ s.b.selfId := by
        rw [hsb]
        exact hne
      have hactB : (dispatch2 s.b (BMsg.announce idA)).isActive = s.b.isActive := by
        show (handleAnnounce2 s.b idA).isActive = s.b.isActive
        exact handleAnnounce2_isActive _ _
      have hemit : emitted s.b (dispatch2 s.b (BMsg.announce idA)) =
          (if s.b.isActive = true then [BMsg.claimActive idB] else []) := by
        show emitted s.b (handleAnnounce2 s.b idA) = _
        rw [emitted_announce2 s.b idA hid, hsb]
      refine ⟨hsa, ?_, ?_, ?_, hag, ?_, ?_⟩
      · show (handleAnnounce2 s.b idA).selfId = idB
        rw [handleAnnounce2_selfId, hsb]
      · intro x hx
        rcases List.mem_append.mp hx with hx' | hx'
        · exact hfa x hx'
        · rw [hemit] at hx'
          by_cases hsact : s.b.isActive = true
          · rw [if_pos hsact] at hx'
            exact Or.inr (List.mem_singleton.mp hx')
          · rw [if_neg hsact] at hx'
            exact absurd hx' (List.not_mem_nil x)
      · intro x hx
        exact hfb x (List.mem_of_mem_erase hx)
      · intro hb
        rw [hactB] at hb
        exact hbg hb
      · intro hb
        rw [hactB] at hb
        rcases hbc hb with h | h | h
        · refine Or.inl ?_
          exact (List.mem_erase_of_ne (by simp)).mpr h
        · exact Or.inr (Or.inl h)
        · exact Or.inr (Or.inr (List.mem_append_left _ h))
    · -- claim_active idA delivered to b
      have hid : idA ≠ s.b.selfId := by
        rw [hsb]
        exact hne
      have hactB : (dispatch2 s.b (BMsg.claimActive idA)).isActive = false := by
        show (handleActiveClaim2 s.b idA).isActive = false
        rw [handleActiveClaim2_isActive s.b idA hid, hsb, hlt]
        simp
      have hemit : emitted s.b (dispatch2 s.b (BMsg.claimActive idA)) = [] := by
        show emitted s.b (handleActiveClaim2 s.b idA) = _
        rw [emitted_claim2 s.b idA hid, hsb, hlt]
        simp
      refine ⟨hsa, ?_, ?_, ?_, hag, ?_, ?_⟩
      · show (handleActiveClaim2 s.b idA).selfId = idB
        rw [handleActiveClaim2_selfId, hsb]
      · intro x hx
        rcases List.mem_append.mp hx with hx' | hx'
        · exact hfa x hx'
        · rw [hemit] at hx'
          exact absurd hx' (List.not_mem_nil x)
      · intro x hx
        exact hfb x (List.mem_of_mem_erase hx)
      · intro hb
        rw [hactB] at hb
        exact absurd hb (by simp)
      · intro hb
        rw [hactB] at hb
        exact absurd hb (by simp)
  | fireA h =>
    unfold fireGraceA Inv
    dsimp only
    have hanotact : s.a.isActive = false := by
      rw [hag, h]
    have hemit : emitted s.a (graceElapsed2 s.a) = [BMsg.claimActive idA] := by
      rw [emitted_grace2, hanotact, hsa]
      simp
    refine ⟨?_, hsb, hfa, ?_, ?_, hbg, ?_⟩
    · rw [graceElapsed2_selfId, hsa]
    · intro x hx
      rcases List.mem_append.mp hx with hx' | hx'
      · exact hfb x hx'
      · rw [hemit] at hx'
        exact Or.inr (List.mem_singleton.mp hx')
    · rw [graceElapsed2_isActive]
    · intro hb
      refine Or.inl (List.mem_append_right _ ?_)
      rw [hemit]
      exact List.mem_singleton.mpr rfl
  | fireB h =>
    unfold fireGraceB Inv
    dsimp only
    refine ⟨hsa, ?_, ?_, hfb, hag, ?_, ?_⟩
    · rw [graceElapsed2_selfId, hsb]
    · intro x hx
      rcases List.mem_append.mp hx with hx' | hx'
      · exact hfa x hx'
      · rw [emitted_grace2] at hx'
        by_cases hsact : s.b.isActive = true
        · rw [if_pos hsact] at hx'
          exact absurd hx' (List.not_mem_nil x)
        · rw [if_neg hsact, hsb] at hx'
          exact Or.inr (List.mem_singleton.mp hx')
    · intro _
      rfl
    · intro _
      by_cases hsact : s.b.isActive = true
      · rcases hbc hsact with h' | h' | h'
        · exact Or.inl h'
        · exact Or.inr (Or.inl h')
        · exact Or.inr (Or.inr (List.mem_append_left _ h'))
      · refine Or.inr (Or.inr (List.mem_append_right _ ?_))
        rw [emitted_grace2, if_neg hsact, hsb]
        exact List.mem_singleton.mpr rfl

theorem inv_reaches (idA idB : String) (hlt : jsLt idA idB = true) {s : Sys}
    (hr : Reaches (initSys idA idB) s) : Inv idA idB s := by
  induction hr with
  | refl => exact inv_initSys idA idB
  | tail _ hstep ih => exact inv_step idA idB hlt ih hstep

/-- C4: two variant-2 peers with ids `idA < idB` (in the JavaScript string
order used by the tie-break), each announcing at startup, converge under
every interleaving of message deliveries and grace-window firings: in any
reachable quiescent state — both grace windows fired and no message in
flight — peer `idA` is ACTIVE and peer `idB` is DORMANT. -/
theorem c4_two_peer_convergence (idA idB : String) (s : Sys)
    (hlt : jsLt idA idB = true)
    (hr : Reaches (initSys idA idB) s) (hq : Quiescent s) :
    s.a.isActive = true ∧ s.b.isActive = false := by
  obtain ⟨hga, hgb, hia, hib⟩ := hq
  obtain ⟨_, _, _, _, hag, _, hbc⟩ := inv_reaches idA idB hlt hr
  refine ⟨by rw [hag, hga], ?_⟩
  by_contra hb
  rw [Bool.not_eq_false] at hb
  rcases hbc hb with h | h | h
  · rw [hib] at h
    exact absurd h (List.not_mem_nil _)
  · rw [hga] at h
    exact Bool.true_eq_false.mp h
  · rw [hia] at h
    exact absurd h (List.not_mem_nil _)

/-- Step 1 of the witness execution: `announce("A")` delivered to `"B"`. -/
def c4s1 : Sys := deliverToB (initSys "A" "B") (BMsg.announce "A")

/-- Step 2: `announce("B")` delivered to `"A"`. -/
def c4s2 : Sys := deliverToA c4s1 (BMsg.announce "B")

/-- Step 3: `"A"`'s grace window fires; `"A"` claims. -/
def c4s3 : Sys := fireGraceA c4s2

/-- Step 4: `claim("A")` delivered to the still-dormant `"B"`. -/
def c4s4 : Sys := deliverToB c4s3 (BMsg.claimActive "A")

/-- Step 5: `"B"`'s grace window fires; `"B"` (wrongly) claims too. -/
def c4s5 : Sys := fireGraceB c4s4

/-- Step 6: `claim("B")` delivered to `"A"`, which reasserts. -/
def c4s6 : Sys := deliverToA c4s5 (BMsg.claimActive "B")

/-- Step 7: the reasserted `claim("A")` demotes `"B"`; quiescent. -/
def c4s7 : Sys := deliverToB c4s6 (BMsg.claimActive "A")

/-- Witness for C4 at the concrete input: ids `"A" < "B"` and the
seven-step interleaving in which both peers become active before the
tie-break resolves the conflict. -/
theorem c4_two_peer_convergence_witness :
    c4s7.a.isActive = true ∧ c4s7.b.isActive = false :=
  c4_two_peer_convergence "A" "B" c4s7 (by decide)
    (Relation.ReflTransGen.tail
      (Relation.ReflTransGen.tail
        (Relation.ReflTransGen.tail
          (Relation.ReflTransGen.tail
            (Relation.ReflTransGen.tail
              (Relation.ReflTransGen.tail
                (Relation.ReflTransGen.tail
                  Relation.ReflTransGen.refl
                  (Step.deliverB (BMsg.announce "A") (by decide)))
                (Step.deliverA (BMsg.announce "B") (by decide)))
              (Step.fireA (by decide)))
            (Step.deliverB (BMsg.claimActive "A") (by decide)))
          (Step.fireB (by decide)))
        (Step.deliverA (BMsg.claimActive "B") (by decide)))
      (Step.deliverB (BMsg.claimActive "A") (by decide)))
    (by refine ⟨?_, ?_, ?_, ?_⟩ <;> decide)

end InstanceManager
